import Mathlib

/-!
Verification of the `run` command of xray-core (`src/main/run.go`).

Shallow embedding. External collaborators (the `platform` package, the
filesystem, `core.LoadConfig`, `core.New`, `fsnotify`) are modelled as explicit
inputs; the functions of `run.go` become pure Lean functions over them.
Process termination (`os.Exit`, `log.Fatalln`) is modelled as an explicit
result constructor carrying the exit code.
-/

namespace XrayRun

/-- Environment inputs of the config locator: the result of
`platform.GetConfDirPath()`, of `platform.GetConfigurationPath()`, and of
`os.Getwd()` (where `none` models a `Getwd` error). -/
structure XEnv where
  confDirPath : String
  configurationPath : String
  workingDir : Option String
deriving DecidableEq

/-- Filesystem model: `files` lists the regular-file paths; `dirs` maps a
directory path to `some` listing of entry names (in directory-listing order),
or to `none` when the directory exists but `os.ReadDir` fails on it. -/
structure XFS where
  files : List String
  dirs : List (String × Option (List String))
deriving DecidableEq

/-- Model of `os.Stat`: `some isDir` on success, `none` on error. -/
def statFS (fs : XFS) (p : String) : Option Bool :=
  if fs.files.contains p then some false
  else
    match fs.dirs.find? (fun d => d.1 == p) with
    | some _ => some true
    | none => none

/-- Embeds `fileExists` (run.go lines 224-227):
`err == nil && !info.IsDir()`. -/
def fileExists (fs : XFS) (file : String) : Bool :=
  match statFS fs file with
  | some isDir => !isDir
  | none => false

/-- Embeds `dirExists` (run.go lines 229-235): empty path is false, otherwise
`err == nil && info.IsDir()`. -/
def dirExists (fs : XFS) (file : String) : Bool :=
  if file = "" then false
  else
    match statFS fs file with
    | some isDir => isDir
    | none => false

/-- Model of `os.ReadDir` over the filesystem model. -/
def readDirFS (fs : XFS) (p : String) : Option (List String) :=
  match fs.dirs.find? (fun d => d.1 == p) with
  | some d => d.2
  | none => none

/-- The filename filter of `getRegepxByFormat` (run.go lines 237-239):
a name matches the anchored pattern of literal text
caret dot-plus backslash-dot json-or-jsonc dollar exactly when it is a
nonempty stem followed by `.json` or `.jsonc` (filenames contain no
newline, so dot-plus is just one or more characters). -/
def matchesConfRegex (s : String) : Bool :=
  let cs := s.data
  (decide (cs.length > 5) && cs.drop (cs.length - 5) == ".json".data) ||
  (decide (cs.length > 6) && cs.drop (cs.length - 6) == ".jsonc".data)

/-- Model of `path.Join` for the shapes used here (a nonempty dir path with no
trailing slash joined with an entry name). -/
def pathJoin (d n : String) : String :=
  if d = "" then n else d ++ "/" ++ n

/-- Result of `readConfDir`: either the process is terminated by
`log.Fatalln` (which calls `os.Exit(1)`), or the global `configFiles`
slice after the scan. -/
inductive ConfDirResult
  | fatalExit (code : Int)
  | ok (configFiles : List String)
deriving DecidableEq

/-- Embeds `readConfDir` (run.go lines 241-255). `os.ReadDir` failure hits
`log.Fatalln` (exit code 1). Every matching entry name is appended to the
global `configFiles` via `configFiles.Set(path.Join(dirPath, f.Name()))`
(`cmdarg.Arg.Set` appends). The `regexp.MatchString` error branch is dead:
the pattern is a fixed valid regex. -/
def readConfDir (fs : XFS) (dirPath : String) (configFiles : List String) : ConfDirResult :=
  match readDirFS fs dirPath with
  | none => .fatalExit 1
  | some names =>
      .ok (configFiles ++ (names.filter matchesConfRegex).map (pathJoin dirPath))

/-- Result of `getConfigFilePath`: either a process termination (from
`readConfDir`), or the new value of the global `configFiles` together with
the returned `cmdarg.Arg`. -/
inductive LocResult
  | fatalExit (code : Int)
  | ok (globalConfigFiles : List String) (resolved : List String)
deriving DecidableEq

/-- Rules 5 and 6 of the locator (run.go lines 285-295): the
environment-supplied single config path, else the stdin sentinel. -/
def resolveEnvOrStdin (env : XEnv) (fs : XFS) (cf : List String) : LocResult :=
  if fileExists fs env.configurationPath then .ok cf [env.configurationPath]
  else .ok cf ["stdin:"]

/-- Rules 3 to 6 of the locator: the body of `getConfigFilePath` after the
directory scan (run.go lines 270-295), over the possibly extended global
`configFiles` value `cf`. -/
def resolveAfterDirScan (env : XEnv) (fs : XFS) (cf : List String) : LocResult :=
  if cf.length > 0 then .ok cf cf
  else
    match env.workingDir with
    | some wd =>
        if fileExists fs (pathJoin wd "config.json") then .ok cf [pathJoin wd "config.json"]
        else resolveEnvOrStdin env fs cf
    | none => resolveEnvOrStdin env fs cf

/-- Embeds `getConfigFilePath` (run.go lines 257-296) as a function of the
environment, the filesystem, and the globals `configDir` and `configFiles`. -/
def getConfigFilePath (env : XEnv) (fs : XFS) (configDir : String)
    (configFiles : List String) : LocResult :=
  if dirExists fs configDir then
    match readConfDir fs configDir configFiles with
    | .fatalExit c => .fatalExit c
    | .ok cf => resolveAfterDirScan env fs cf
  else if dirExists fs env.confDirPath then
    match readConfDir fs env.confDirPath configFiles with
    | .fatalExit c => .fatalExit c
    | .ok cf => resolveAfterDirScan env fs cf
  else resolveAfterDirScan env fs configFiles

/-- Two successive calls of `getConfigFilePath` with unchanged environment,
filesystem and flags; the second call starts from the global `configFiles`
left behind by the first (the global persists across calls). Returns the two
resolved values, or `none` if a call terminated the process. -/
def callTwice (env : XEnv) (fs : XFS) (configDir : String)
    (configFiles : List String) : Option (List String × List String) :=
  match getConfigFilePath env fs configDir configFiles with
  | .fatalExit _ => none
  | .ok cf1 res1 =>
      match getConfigFilePath env fs configDir cf1 with
      | .fatalExit _ => none
      | .ok _ res2 => some (res1, res2)

/-- Injected outcomes of the external collaborators during initial bootstrap:
`locFatal` is true when `readConfDir` hits `log.Fatalln` (a directory was
named but could not be listed, the ReadError case); `loadOk` is whether
`core.LoadConfig` succeeds (false is the ConfigError case); `buildOk` is
whether `core.New` succeeds (false is the BuildError case); `startOk` is
whether `server.Start()` succeeds (false is the StartError case). -/
structure BootOutcome where
  locFatal : Bool
  loadOk : Bool
  buildOk : Bool
  startOk : Bool
deriving DecidableEq

/-- Exit code of the bootstrap path of `executeRun` (run.go lines 77-92),
including the fatal exit inside the locator (run.go line 244) reached through
`startXray -> getConfigFilePath -> readConfDir`. A `startXray` error (load or
build failure, run.go lines 311-319) exits 23; with `-test` the process exits
0 before `Start` is called; a `Start` failure exits -1. `none` means the
process keeps running. -/
def executeRunExit (o : BootOutcome) (testFlag : Bool) : Option Int :=
  if o.locFatal then some 1
  else if !o.loadOk then some 23
  else if !o.buildOk then some 23
  else if testFlag then some 0
  else if !o.startOk then some (-1)
  else none

/-- fsnotify operation bit flags (values of fsnotify.Op). -/
def opCreate : Nat := 1

/-- fsnotify Write flag. -/
def opWrite : Nat := 2

/-- One filesystem notification event: a path and an operation bitmask. -/
structure FSEvent where
  name : String
  op : Nat
deriving DecidableEq

/-- The test on run.go line 195:
`event.Op&(fsnotify.Write|fsnotify.Create) != 0`. -/
def qualifiesRestart (e : FSEvent) : Bool :=
  (e.op &&& (opWrite ||| opCreate)) != 0

/-- Number of RestartSignal emissions (sends on `restartChan`, run.go
line 198) produced by the event-consuming loop of `startFileWatcher`
(run.go lines 187-207) for a given stream of events: one send per event
passing the line-195 test, zero otherwise, no coalescing. -/
def watchEmissions : List FSEvent → Nat
  | [] => 0
  | e :: rest => (if qualifiesRestart e then 1 else 0) + watchEmissions rest

/-- One possible outcome of a reload attempt by the restart goroutine:
`locFatal` means `startXray()` never returned because `getConfigFilePath`
(run.go line 307, reached from line 121) ran `readConfDir` on a config
directory that has become unlistable, hitting `log.Fatalln` (run.go line
244) which exits the process with code 1 mid-swap; `buildFail` is a
`startXray()` error return (config load or server build failed, run.go
line 122); `startFail h` means a new handle `h` was built but
`newServer.Start()` failed (run.go line 128); `success h` means the new
handle `h` was built and started. -/
inductive SwapOutcome
  | locFatal
  | buildFail
  | startFail (h : Nat)
  | success (h : Nat)
deriving DecidableEq

/-- Is the outcome a failed swap. -/
def isFailure : SwapOutcome → Bool
  | .success _ => false
  | _ => true

/-- The supervisor state of the restart goroutine: the handle currently held
by the `server` variable, and whether that handle is started (it stops being
started once `server.Close()` has been called on it). -/
structure SupState where
  server : Nat
  running : Bool
deriving DecidableEq

/-- Observable actions of one reload iteration, in program order. -/
inductive SwapAction
  | closeOld (h : Nat)
  | buildNew
  | startNew (h : Nat)
  | logged (msg : String)
  | exitProcess (code : Int)
deriving DecidableEq

/-- One iteration of the restart goroutine body (run.go lines 112-136),
triggered by a receive on `restartChan`: `server.Close()` on the current
handle first, then `startXray()`, then `newServer.Start()`; on either
failure the loop logs and continues with the `server` variable unchanged
(still referencing the old, now closed, handle); on success the `server`
variable is replaced by the new handle. An error from `Close` is only
logged, which does not affect the state, so it is not modelled. When the
rebuild hits `log.Fatalln` inside `readConfDir` (the `locFatal` outcome),
the process exits with code 1 after the old handle was already closed. -/
def swapStep (st : SupState) (o : SwapOutcome) : SupState × List SwapAction :=
  match o with
  | .locFatal =>
      ({ st with running := false },
       [.closeOld st.server, .buildNew, .exitProcess 1])
  | .buildFail =>
      ({ st with running := false },
       [.closeOld st.server, .buildNew,
        .logged "Failed to load new config", .logged "Keeping current server running"])
  | .startFail h =>
      ({ st with running := false },
       [.closeOld st.server, .buildNew, .startNew h,
        .logged "Failed to start new server", .logged "Keeping current server running"])
  | .success h =>
      ({ server := h, running := true },
       [.closeOld st.server, .buildNew, .startNew h,
        .logged "Xray restarted successfully with new config"])

/-- Modelled from the spec: the generation counter of SupervisorState.
The code in run.go keeps no explicit counter (only the `server` variable is
replaced); per the spec, which says the state holds "a monotonically
increasing generation counter incremented on every successful swap", the
generation after a list of processed swap outcomes is the number of
successful ones among them. -/
def generation (outs : List SwapOutcome) : Nat :=
  (outs.filter (fun o => !isFailure o)).length

/-- Embeds `getConfigFormat` (run.go lines 298-304). The extension-to-format
lookup `core.GetFormatByExtension` lives outside src and is passed in as
`lookup`; it returns the empty string for a value it does not recognize,
which `getConfigFormat` replaces by "auto". The result is the format hint
`startXray` passes to `core.LoadConfig` (run.go line 311). -/
def getConfigFormat (lookup : String → String) (format : String) : String :=
  let f := lookup format
  if f = "" then "auto" else f


/-- Helper: a bitmask intersects the union of Write and Create exactly when
it intersects one of them. -/
theorem and_writeCreate_ne_zero (n : Nat) :
    (n &&& (opWrite ||| opCreate) ≠ 0) ↔ (n &&& opWrite ≠ 0 ∨ n &&& opCreate ≠ 0) := by
  show (n &&& 3 ≠ 0) ↔ (n &&& 2 ≠ 0 ∨ n &&& 1 ≠ 0)
  have h3 : n &&& 3 = n % 4 := by simpa using Nat.and_pow_two_sub_one_eq_mod n 2
  have h1 : n &&& 1 = n % 2 := Nat.and_one_is_mod n
  have h2 : n &&& 2 = (n.testBit 1).toNat * 2 := by simpa using Nat.and_two_pow n 1
  rw [Nat.testBit_to_div_mod] at h2
  have hlt : n / 2 % 2 < 2 := Nat.mod_lt _ (by norm_num)
  interval_cases h : n / 2 % 2 <;> simp at h2 <;> omega

/-- C7: the event-consuming loop emits exactly one RestartSignal for every
event whose operation includes Write or Create, and zero for every other
event; N qualifying events give N emissions, with no debouncing. -/
theorem watcher_emits_per_qualifying_event (evs : List FSEvent) :
    watchEmissions evs =
      (evs.filter (fun e => decide (e.op &&& opWrite ≠ 0 ∨ e.op &&& opCreate ≠ 0))).length := by
  induction evs with
  | nil => rfl
  | cons e rest ih =>
      simp only [watchEmissions, List.filter]
      by_cases hq : qualifiesRestart e = true
      · have : decide (e.op &&& opWrite ≠ 0 ∨ e.op &&& opCreate ≠ 0) = true := by
          have := (and_writeCreate_ne_zero e.op).mp (by simpa [qualifiesRestart] using hq)
          simpa using this
        simp [hq, this, ih]
        omega
      · have hq' : qualifiesRestart e = false := by simpa using hq
        have : decide (e.op &&& opWrite ≠ 0 ∨ e.op &&& opCreate ≠ 0) = false := by
          have hz : e.op &&& (opWrite ||| opCreate) = 0 := by
            simpa [qualifiesRestart] using hq'
          have := (and_writeCreate_ne_zero e.op).not.mp (by simp [hz])
          push_neg at this
          simp [this.1, this.2]
        simp [hq', this, ih]

/-- C10: for every flag value, the format hint passed to the loader is the
flag value mapped through the lookup, with an unrecognized value (empty
lookup result) silently replaced by "auto"; the hint is never empty and no
error path exists. -/
theorem format_hint_lookup_or_auto (lookup : String → String) (format : String) :
    getConfigFormat lookup format =
      (if lookup format = "" then "auto" else lookup format) ∧
    getConfigFormat lookup format ≠ "" := by
  refine ⟨rfl, ?_⟩
  by_cases h : lookup format = "" <;> simp [getConfigFormat, h]


/-- C1 counterexample: a reload processed from the Running state can exit
the process. When the rebuild runs `startXray` and the config directory has
become unlistable, `readConfDir` (reached via run.go lines 121, 307, 262)
hits `log.Fatalln` at run.go line 244 and the process terminates with code
1 mid-swap: building the new handle fails and the failure is not merely
logged; the process does crash. -/
theorem reload_can_exit_process_counterexample :
    isFailure SwapOutcome.locFatal = true ∧
    SwapAction.exitProcess 1 ∈ (swapStep ⟨7, true⟩ .locFatal).2 := by
  exact ⟨rfl, by decide⟩

/-- C1 amended: processing a RestartSignal from the Running state closes the
old handle first (the first action), then builds and starts the new one (the
second action is the build attempt). When building or starting the new
handle fails with an error return, the supervisor is left with no running
handle, the `server` variable still referencing the old closed handle (not
restored, not restarted), the failure only logged and the loop continues
without exiting the process. But the process can crash during a swap: when
the rebuild hits `log.Fatalln` inside `readConfDir` (an unlistable config
directory), the iteration ends with a process exit with code 1. -/
theorem supervisor_swap_close_first_no_restore (st : SupState) (o : SwapOutcome)
    (_hrun : st.running = true) :
    ((swapStep st o).2.head? = some (.closeOld st.server)) ∧
    (((swapStep st o).2.drop 1).head? = some .buildNew) ∧
    (o = .buildFail ∨ (∃ h, o = .startFail h) →
      (∀ c : Int, SwapAction.exitProcess c ∉ (swapStep st o).2) ∧
      (swapStep st o).1.running = false ∧
      (swapStep st o).1.server = st.server ∧
      (∀ h, SwapAction.startNew h ∈ (swapStep st o).2 → o = .startFail h) ∧
      ∃ m, SwapAction.logged m ∈ (swapStep st o).2) ∧
    (o = .locFatal → SwapAction.exitProcess 1 ∈ (swapStep st o).2) := by
  cases o with
  | locFatal =>
      refine ⟨rfl, rfl, ?_, fun _ => by simp [swapStep]⟩
      rintro (h | ⟨h', h⟩) <;> exact absurd h (by simp)
  | buildFail =>
      refine ⟨rfl, rfl, ?_, fun h => nomatch h⟩
      intro _
      refine ⟨?_, rfl, rfl, ?_, ⟨"Failed to load new config", by simp [swapStep]⟩⟩
      · intro c; simp [swapStep]
      · intro h hm
        simp [swapStep] at hm
  | startFail h =>
      refine ⟨rfl, rfl, ?_, fun hl => nomatch hl⟩
      intro _
      refine ⟨?_, rfl, rfl, ?_, ⟨"Failed to start new server", by simp [swapStep]⟩⟩
      · intro c; simp [swapStep]
      · intro h' hm
        simp [swapStep] at hm
        simp [hm]
  | success h =>
      refine ⟨rfl, rfl, ?_, fun hl => nomatch hl⟩
      rintro (hf | ⟨h', hf⟩) <;> exact absurd hf (by simp)

/-- Witness for the amended C1 at a concrete state and a concrete
error-return failure. -/
theorem supervisor_swap_close_first_no_restore_witness :
    (SupState.mk 7 true).running = true ∧
    (swapStep ⟨7, true⟩ .buildFail).2.head? = some (.closeOld 7) ∧
    ((swapStep ⟨7, true⟩ .buildFail).2.drop 1).head? = some .buildNew ∧
    (swapStep ⟨7, true⟩ .buildFail).1.running = false ∧
    (swapStep ⟨7, true⟩ .buildFail).1.server = 7 :=
  ⟨rfl, (supervisor_swap_close_first_no_restore ⟨7, true⟩ .buildFail rfl).1,
   (supervisor_swap_close_first_no_restore ⟨7, true⟩ .buildFail rfl).2.1,
   ((supervisor_swap_close_first_no_restore ⟨7, true⟩ .buildFail rfl).2.2.1 (Or.inl rfl)).2.1,
   ((supervisor_swap_close_first_no_restore ⟨7, true⟩ .buildFail rfl).2.2.1 (Or.inl rfl)).2.2.1⟩

/-- C6: the generation counter (count of successful swaps) increases by
exactly 1 when a swap succeeds (equivalently, when the step leaves a running
handle), never changes when a swap fails, and is monotone over the life of
the process. -/
theorem generation_counts_successful_swaps (st : SupState)
    (outs : List SwapOutcome) (o : SwapOutcome) :
    ((swapStep st o).1.running = true → generation (outs ++ [o]) = generation outs + 1) ∧
    ((swapStep st o).1.running = false → generation (outs ++ [o]) = generation outs) ∧
    (∀ more : List SwapOutcome, generation outs ≤ generation (outs ++ more)) := by
  refine ⟨?_, ?_, ?_⟩
  · intro hr
    cases o with
    | locFatal => simp [swapStep] at hr
    | buildFail => simp [swapStep] at hr
    | startFail h => simp [swapStep] at hr
    | success h => simp [generation, isFailure, List.filter_append]
  · intro hr
    cases o with
    | locFatal => simp [generation, isFailure, List.filter_append]
    | buildFail => simp [generation, isFailure, List.filter_append]
    | startFail h => simp [generation, isFailure, List.filter_append]
    | success h => simp [swapStep] at hr
  · intro more
    simp [generation, List.filter_append]

/-- Witness for C6 at a concrete state, history and outcome. -/
theorem generation_counts_successful_swaps_witness :
    generation ([.buildFail] ++ [.success 2]) = generation [.buildFail] + 1 :=
  (generation_counts_successful_swaps ⟨0, true⟩ [.buildFail] (.success 2)).1 rfl


/-- Helper: with no resolvable config directory, the locator is just the
post-scan resolution over the unchanged global `configFiles`. -/
theorem getConfigFilePath_no_dir (env : XEnv) (fs : XFS) (configDir : String)
    (cf : List String)
    (h1 : dirExists fs configDir = false)
    (h2 : dirExists fs env.confDirPath = false) :
    getConfigFilePath env fs configDir cf = resolveAfterDirScan env fs cf := by
  simp [getConfigFilePath, h1, h2]

/-- Helper: the post-scan resolution never touches the global `configFiles`
and never exits. -/
theorem resolveAfterDirScan_shape (env : XEnv) (fs : XFS) (cf : List String) :
    ∃ r, resolveAfterDirScan env fs cf = .ok cf r := by
  unfold resolveAfterDirScan resolveEnvOrStdin
  split
  · exact ⟨cf, rfl⟩
  · split
    · split
      · exact ⟨_, rfl⟩
      · split
        · exact ⟨_, rfl⟩
        · exact ⟨_, rfl⟩
    · split
      · exact ⟨_, rfl⟩
      · exact ⟨_, rfl⟩

/-- C2 counterexample: with a valid confdir `d` holding `a.json` and an
explicit `-c explicit.json`, the resolved source is the explicit file
followed by the directory entry, not the directory entries alone: directory
resolution does not win, it appends. -/
theorem confdir_precedence_counterexample :
    getConfigFilePath ⟨"", "", none⟩ ⟨[], [("d", some ["a.json"])]⟩ "d" ["explicit.json"] =
      .ok ["explicit.json", "d/a.json"] ["explicit.json", "d/a.json"] ∧
    (["explicit.json", "d/a.json"] : List String) ≠ ["d/a.json"] := by
  exact ⟨by decide, by decide⟩

/-- C2 amended: when a valid config directory and explicit `-c` files are
both given, the directory scan runs first and appends its matching entries
to the explicit files; the resolved ConfigSource is the explicit files
followed by the directory entries (both are used, neither replaces the
other). -/
theorem confdir_appends_to_explicit_files (env : XEnv) (fs : XFS)
    (configDir : String) (configFiles names : List String)
    (hdir : dirExists fs configDir = true)
    (hread : readDirFS fs configDir = some names)
    (hcf : configFiles ≠ []) :
    getConfigFilePath env fs configDir configFiles =
      .ok (configFiles ++ (names.filter matchesConfRegex).map (pathJoin configDir))
          (configFiles ++ (names.filter matchesConfRegex).map (pathJoin configDir)) := by
  have hlen :
      (configFiles ++ (names.filter matchesConfRegex).map (pathJoin configDir)).length > 0 := by
    have := List.length_pos.mpr hcf
    simp [List.length_append]
    omega
  simp only [getConfigFilePath, hdir, if_true, readConfDir, hread]
  unfold resolveAfterDirScan
  rw [if_pos hlen]

/-- Witness for the amended C2 at a concrete directory and explicit file. -/
theorem confdir_appends_to_explicit_files_witness :
    getConfigFilePath ⟨"", "", none⟩ ⟨[], [("d", some ["a.json"])]⟩ "d" ["explicit.json"] =
      .ok (["explicit.json"] ++ ((["a.json"].filter matchesConfRegex).map (pathJoin "d")))
          (["explicit.json"] ++ ((["a.json"].filter matchesConfRegex).map (pathJoin "d"))) :=
  confdir_appends_to_explicit_files ⟨"", "", none⟩ ⟨[], [("d", some ["a.json"])]⟩ "d"
    ["explicit.json"] ["a.json"] (by decide) (by decide) (by decide)

/-- C3 counterexample: with a valid confdir `d` holding `a.json` and no other
sources, the first call resolves to one entry and the second call to that
entry duplicated, because the scan appends to the persistent global again. -/
theorem locator_not_idempotent_counterexample :
    callTwice ⟨"", "", none⟩ ⟨[], [("d", some ["a.json"])]⟩ "d" [] =
      some (["d/a.json"], ["d/a.json", "d/a.json"]) ∧
    (["d/a.json"] : List String) ≠ ["d/a.json", "d/a.json"] := by
  exact ⟨by decide, by decide⟩

/-- C3 amended: source resolution is idempotent exactly in the absence of a
resolvable config directory: if neither the flag directory nor the
environment default directory exists, a second call returns the identical
result and leaves the global `configFiles` unchanged. -/
theorem locator_idempotent_without_confdir (env : XEnv) (fs : XFS)
    (configDir : String) (configFiles : List String)
    (h1 : dirExists fs configDir = false)
    (h2 : dirExists fs env.confDirPath = false) :
    ∀ cf1 res1, getConfigFilePath env fs configDir configFiles = .ok cf1 res1 →
      getConfigFilePath env fs configDir cf1 = .ok cf1 res1 := by
  intro cf1 res1 hcall
  rw [getConfigFilePath_no_dir env fs configDir configFiles h1 h2] at hcall
  obtain ⟨r, hr⟩ := resolveAfterDirScan_shape env fs configFiles
  rw [hr] at hcall
  cases hcall
  rw [getConfigFilePath_no_dir env fs configDir configFiles h1 h2]
  exact hr

/-- Witness for the amended C3: with no config directory, calling again after
the stdin fallback returns the same result. -/
theorem locator_idempotent_without_confdir_witness :
    getConfigFilePath ⟨"", "", none⟩ ⟨[], []⟩ "" [] = .ok [] ["stdin:"] :=
  locator_idempotent_without_confdir ⟨"", "", none⟩ ⟨[], []⟩ "" []
    (by decide) (by decide) [] ["stdin:"] (by decide)

/-- C5 counterexample: confdir `d` exists (stat reports a directory) but its
listing fails; source resolution terminates the process with exit code 1
(`log.Fatalln` inside `readConfDir`) instead of returning an error to the
caller. -/
theorem readdir_failure_exits_counterexample :
    getConfigFilePath ⟨"", "", none⟩ ⟨[], [("d", none)]⟩ "d" [] = .fatalExit 1 := by
  decide

/-- C5 amended: if a named config directory cannot be listed, `readConfDir`
terminates the process directly via `log.Fatalln` (exit code 1); no error
value is propagated to the caller of source resolution. -/
theorem readdir_failure_fatal_exit (env : XEnv) (fs : XFS) (configDir : String)
    (cf : List String)
    (hdir : dirExists fs configDir = true)
    (hread : readDirFS fs configDir = none) :
    getConfigFilePath env fs configDir cf = .fatalExit 1 := by
  simp [getConfigFilePath, hdir, readConfDir, hread]

/-- Witness for the amended C5 at a concrete unlistable directory. -/
theorem readdir_failure_fatal_exit_witness :
    getConfigFilePath ⟨"", "", none⟩ ⟨[], [("e", none)]⟩ "e" ["x.json"] = .fatalExit 1 :=
  readdir_failure_fatal_exit ⟨"", "", none⟩ ⟨[], [("e", none)]⟩ "e" ["x.json"]
    (by decide) (by decide)

/-- C8: with no CLI files, no resolvable config directory, no working-dir
`config.json` and no environment default file, resolution returns exactly
the one-element stdin sentinel source. -/
theorem locator_stdin_fallback (env : XEnv) (fs : XFS) (configDir : String)
    (h1 : dirExists fs configDir = false)
    (h2 : dirExists fs env.confDirPath = false)
    (h3 : ∀ wd, env.workingDir = some wd → fileExists fs (pathJoin wd "config.json") = false)
    (h4 : fileExists fs env.configurationPath = false) :
    getConfigFilePath env fs configDir [] = .ok [] ["stdin:"] := by
  rw [getConfigFilePath_no_dir env fs configDir [] h1 h2]
  unfold resolveAfterDirScan resolveEnvOrStdin
  cases hw : env.workingDir with
  | none => simp [h4]
  | some wd => simp [h3 wd hw, h4]

/-- Witness for C8 on an empty filesystem. -/
theorem locator_stdin_fallback_witness :
    getConfigFilePath ⟨"", "", none⟩ ⟨[], []⟩ "" [] = .ok [] ["stdin:"] :=
  locator_stdin_fallback ⟨"", "", none⟩ ⟨[], []⟩ ""
    (by decide) (by decide) (fun wd h => nomatch h) (by decide)

/-- C9: a `config.json` in the working directory whose stat reports a
directory is not used as the resolved source: `fileExists` is false on it,
and resolution falls through to the next rule (the environment default
file, else stdin). -/
theorem config_json_dir_skipped (env : XEnv) (fs : XFS) (configDir wd : String)
    (h1 : dirExists fs configDir = false)
    (h2 : dirExists fs env.confDirPath = false)
    (hwd : env.workingDir = some wd)
    (hdir : statFS fs (pathJoin wd "config.json") = some true) :
    fileExists fs (pathJoin wd "config.json") = false ∧
    getConfigFilePath env fs configDir [] =
      (if fileExists fs env.configurationPath then LocResult.ok [] [env.configurationPath]
       else LocResult.ok [] ["stdin:"]) := by
  have hfe : fileExists fs (pathJoin wd "config.json") = false := by
    simp [fileExists, hdir]
  refine ⟨hfe, ?_⟩
  rw [getConfigFilePath_no_dir env fs configDir [] h1 h2]
  unfold resolveAfterDirScan resolveEnvOrStdin
  simp [hwd, hfe]

/-- Witness for C9: `w/config.json` is a directory; resolution skips it and
falls back to stdin. -/
theorem config_json_dir_skipped_witness :
    fileExists ⟨[], [("w/config.json", some [])]⟩ (pathJoin "w" "config.json") = false ∧
    getConfigFilePath ⟨"", "", some "w"⟩ ⟨[], [("w/config.json", some [])]⟩ "" [] =
      (if fileExists ⟨[], [("w/config.json", some [])]⟩ "" then LocResult.ok [] [""]
       else LocResult.ok [] ["stdin:"]) :=
  config_json_dir_skipped ⟨"", "", some "w"⟩ ⟨[], [("w/config.json", some [])]⟩ "" "w"
    (by decide) (by decide) rfl (by decide)

/-- C4 counterexample: a BuildError during initial bootstrap (load succeeds,
`core.New` fails) exits with code 23, the same code as a ConfigError, not a
distinct one; and a ReadError (unlistable directory) exits with code 1, not
23. -/
theorem bootstrap_exit_code_counterexample :
    executeRunExit ⟨false, true, false, true⟩ false = some 23 ∧
    executeRunExit ⟨false, false, true, true⟩ false = some 23 ∧
    executeRunExit ⟨true, true, true, true⟩ false = some 1 ∧
    (1 : Int) ≠ 23 := by
  decide

/-- C4 amended: during initial bootstrap a ConfigError exits 23 and a
BuildError also exits 23 (both surface as a `startXray` error); a StartError
exits with -1, a nonzero code distinct from 23; a ReadError terminates with
code 1 via `log.Fatalln` inside the locator. -/
theorem bootstrap_exit_codes (o : BootOutcome) :
    (o.locFatal = true → executeRunExit o false = some 1) ∧
    (o.locFatal = false → o.loadOk = false → executeRunExit o false = some 23) ∧
    (o.locFatal = false → o.loadOk = true → o.buildOk = false →
      executeRunExit o false = some 23) ∧
    (o.locFatal = false → o.loadOk = true → o.buildOk = true → o.startOk = false →
      executeRunExit o false = some (-1) ∧ (-1 : Int) ≠ 23 ∧ (-1 : Int) ≠ 0) := by
  obtain ⟨lf, lo, bo, so⟩ := o
  refine ⟨?_, ?_, ?_, ?_⟩ <;> intro h <;> simp_all [executeRunExit]

/-- Witness for the amended C4 at the BuildError outcome. -/
theorem bootstrap_exit_codes_witness :
    executeRunExit ⟨false, true, false, true⟩ false = some 23 :=
  (bootstrap_exit_codes ⟨false, true, false, true⟩).2.2.1 rfl rfl rfl

end XrayRun
